import Mathlib

/-!
Shallow embedding of the FitFuel health & fitness calculator (`src/main.py`).

Python floats are modelled as rationals (`ℚ`): every arithmetic constant of
the source (`6.25`, `1.55`, `1.8`, …) is a decimal literal, exactly
representable in `ℚ`, and on all concrete inputs considered below the
rational computation produces the same rounded integers as the
double-precision one.  Python's built-in `round` (round-half-to-even) is
modelled by `pyRound`, and Python's `str.lower` by `pyLower` (ASCII case
folding, which is what matters for the comparison against `"male"`).

The JSON flat-file store (`data/users.json`) is modelled by `FileContent`:
the file is either absent, holds a well-formed JSON array of entries
(`valid`), or holds content that `json.loads` rejects (`corrupt`).  JSON
serialization itself is external library code and is abstracted away by
these three states.  A stored entry is a JSON object which may lack the
`"timestamp"` key, hence `timestamp : Option String`; likewise for the
payload fields.  Python's `sorted(..., reverse=True)` is a stable sort,
modelled by `List.mergeSort` (also stable) with the descending comparator;
Python compares strings lexicographically by code point, which is exactly
the order on `List Char` used here.
-/

namespace FitFuel

/-- Result of `compute_macros` (the dict `{"protein_g", "fat_g", "carb_g"}`). -/
structure Macros where
  protein_g : ℚ
  fat_g : ℚ
  carb_g : ℚ
  deriving DecidableEq, Repr

/-- The `result` dict built by the `calculate` route (rounded display values). -/
structure CalcResult where
  calories : ℤ
  protein_g : ℤ
  fat_g : ℤ
  carb_g : ℤ
  bmr : ℤ
  activity_multiplier : ℚ
  deriving DecidableEq, Repr

/-- The form inputs of the `calculate` route that feed the computation. -/
structure CalcInput where
  height_cm : ℚ
  weight_kg : ℚ
  age_years : ℤ
  gender : String
  activity_level : String
  deriving DecidableEq, Repr

/-- Python's built-in `round`: nearest integer, ties go to the even integer. -/
def pyRound (q : ℚ) : ℤ :=
  if q - ⌊q⌋ < 1/2 then ⌊q⌋
  else if (1 : ℚ)/2 < q - ⌊q⌋ then ⌊q⌋ + 1
  else if ⌊q⌋ % 2 = 0 then ⌊q⌋ else ⌊q⌋ + 1

/-- Python's `str.lower` (ASCII case folding on each character). -/
def pyLower (s : String) : String := ⟨s.data.map Char.toLower⟩

/-- `calculate_bmr_mifflin_st_jeor` from `src/main.py` (lines 64–82). -/
def calculate_bmr_mifflin_st_jeor (weight_kg height_cm : ℚ) (age_years : ℤ)
    (gender : String) : ℚ :=
  let base := 10 * weight_kg + 6.25 * height_cm - 5 * (age_years : ℚ)
  if pyLower gender = "male" then base + 5 else base - 161

/-- `activity_multiplier` from `src/main.py` (lines 85–102): dict lookup with
default `1.2` for unknown keys. -/
def activity_multiplier (level : String) : ℚ :=
  if level = "sedentary" then 1.2
  else if level = "light" then 1.375
  else if level = "moderate" then 1.55
  else if level = "very" then 1.725
  else if level = "extra" then 1.9
  else 1.2

/-- `compute_macros` from `src/main.py` (lines 105–131). -/
def compute_macros (total_calories weight_kg : ℚ) : Macros :=
  let protein_grams := 1.8 * weight_kg
  let fat_grams := 0.8 * weight_kg
  let protein_cal := protein_grams * 4
  let fat_cal := fat_grams * 9
  let remaining_cal_for_carbs := max (total_calories - (protein_cal + fat_cal)) 0
  let carb_grams := remaining_cal_for_carbs / 4
  { protein_g := protein_grams, fat_g := fat_grams, carb_g := carb_grams }

/-- The unrounded BMR computed by the `calculate` route. -/
def bmrOf (inp : CalcInput) : ℚ :=
  calculate_bmr_mifflin_st_jeor inp.weight_kg inp.height_cm inp.age_years inp.gender

/-- The unrounded TDEE computed by the `calculate` route. -/
def tdeeOf (inp : CalcInput) : ℚ :=
  bmrOf inp * activity_multiplier inp.activity_level

/-- The pure computation of the `calculate` route (`src/main.py`, lines
140–178): BMR, then TDEE, then macro split, then rounding for display. -/
def calculate (inp : CalcInput) : CalcResult :=
  let bmr := bmrOf inp
  let multiplier := activity_multiplier inp.activity_level
  let tdee := bmr * multiplier
  let macros := compute_macros tdee inp.weight_kg
  { calories := pyRound tdee
    protein_g := pyRound macros.protein_g
    fat_g := pyRound macros.fat_g
    carb_g := pyRound macros.carb_g
    bmr := pyRound bmr
    activity_multiplier := multiplier }

/-- A persisted entry: a JSON object in `data/users.json`.  Any key may be
absent in a hand-edited file, which matters for the dashboard sort, so the
fields beyond `name` are optional. -/
structure Entry where
  name : String
  timestamp : Option String
  inputs : Option CalcInput
  results : Option CalcResult
  deriving DecidableEq, Repr

/-- State of `data/users.json`: missing, a well-formed JSON array of entries,
or content rejected by `json.loads`. -/
inductive FileContent
  | absent
  | valid (entries : List Entry)
  | corrupt
  deriving DecidableEq, Repr

/-- `_ensure_data_file_exists` from `src/main.py` (lines 35–40): writes `"[]"`
when the file is missing. -/
def ensure_data_file_exists : FileContent → FileContent
  | .absent => .valid []
  | fc => fc

/-- `load_users` from `src/main.py` (lines 43–52): ensures the file exists,
then parses it, returning `[]` when parsing fails.  Returns the loaded list
together with the resulting file state. -/
def load_users (fc : FileContent) : List Entry × FileContent :=
  match ensure_data_file_exists fc with
  | .valid l => (l, .valid l)
  | fc' => ([], fc')

/-- `save_user_entry` from `src/main.py` (lines 55–61): read-modify-write of
the whole file, appending one entry. -/
def save_user_entry (e : Entry) (fc : FileContent) : FileContent :=
  .valid ((load_users (ensure_data_file_exists fc)).1 ++ [e])

/-- The entries currently stored in the file (empty when absent/corrupt). -/
def storeEntries : FileContent → List Entry
  | .valid l => l
  | _ => []

/-- The sort key used by the dashboard: `u.get("timestamp", "")`. -/
def timKey (e : Entry) : String := e.timestamp.getD ""

/-- The descending comparator of `sorted(users, key=..., reverse=True)`:
`a` may precede `b` iff the key of `b` is ≤ the key of `a`.  Stated on the
character lists so that it evaluates by `decide`; `entryDescBy_iff` below
identifies it with the lexicographic order on `String`. -/
def entryDescBy (a b : Entry) : Bool :=
  decide ((timKey b).data ≤ (timKey a).data)

/-- The `dashboard` route's listing (`src/main.py`, lines 214–223): load all
entries and stable-sort them newest-first. -/
def dashboard_users (fc : FileContent) : List Entry :=
  ((load_users fc).1).mergeSort entryDescBy

/-- Concrete entry used to exercise the store round-trip. -/
def entryA : Entry :=
  { name := "Alice", timestamp := some "2024-01-15T10:30:00Z"
    inputs := none, results := none }

/-- Concrete entry with a timestamp, for the dashboard-sort example. -/
def entryB : Entry :=
  { name := "Bob", timestamp := some "2024-02-01T08:00:00Z"
    inputs := none, results := none }

/-- Concrete entry lacking the `"timestamp"` key. -/
def entryC : Entry :=
  { name := "Carol", timestamp := none, inputs := none, results := none }

/-- A concrete stored list: one timestamped entry, one without a timestamp. -/
def storeBC : List Entry := [entryB, entryC]

end FitFuel

namespace FitFuel

lemma entryDescBy_iff (a b : Entry) : entryDescBy a b = true ↔ timKey b ≤ timKey a := by
  simp only [entryDescBy, decide_eq_true_eq, String.le_iff_toList_le]
  rfl

lemma entryDescBy_trans (a b c : Entry) :
    entryDescBy a b → entryDescBy b c → entryDescBy a c := by
  simp only [entryDescBy_iff]
  intro h1 h2
  exact le_trans h2 h1

lemma entryDescBy_total (a b : Entry) : entryDescBy a b || entryDescBy b a := by
  rcases le_total (timKey a) (timKey b) with h | h
  · simp [entryDescBy_iff, h]
  · simp [entryDescBy_iff, h]

lemma dashboard_pairwise (fc : FileContent) :
    (dashboard_users fc).Pairwise (fun a b => timKey b ≤ timKey a) := by
  have h := List.sorted_mergeSort entryDescBy_trans entryDescBy_total
    ((load_users fc).1)
  exact h.imp (fun hab => (entryDescBy_iff _ _).mp hab)

lemma load_users_fst (fc : FileContent) : (load_users fc).1 = storeEntries fc := by
  cases fc <;> rfl

lemma string_eq_empty_of_le_empty {s : String} (h : s ≤ "") : s = "" := by
  cases s with
  | mk data =>
    cases data with
    | nil => rfl
    | cons c cs =>
      exfalso
      rw [String.le_iff_toList_le] at h
      exact absurd (List.nil_lt_cons c cs) (not_lt.mpr h)

end FitFuel

open FitFuel

/-- C1: `calculate_bmr_mifflin_st_jeor` returns
`10*w + 6.25*h - 5*a + 5` when the gender lowercases to `"male"` and
`10*w + 6.25*h - 5*a - 161` for every other gender string, for all inputs
(including non-positive ones) — the function is total and never faults. -/
theorem bmr_mifflin_formula (w h : ℚ) (a : ℤ) (g : String) :
    (pyLower g = "male" →
      calculate_bmr_mifflin_st_jeor w h a g = 10*w + 6.25*h - 5*(a : ℚ) + 5) ∧
    (pyLower g ≠ "male" →
      calculate_bmr_mifflin_st_jeor w h a g = 10*w + 6.25*h - 5*(a : ℚ) - 161) := by
  constructor <;> intro hg <;> simp [calculate_bmr_mifflin_st_jeor, hg]

/-- Witness for C1: the male branch at `"MaLe"` (case-insensitive match) and
the female branch at `"other"`, evaluated at weight 80, height 180, age 30. -/
theorem bmr_mifflin_formula_witness :
    calculate_bmr_mifflin_st_jeor 80 180 30 "MaLe" = 1780 ∧
    calculate_bmr_mifflin_st_jeor 80 180 30 "other" = 1614 := by
  constructor
  · rw [(bmr_mifflin_formula 80 180 30 "MaLe").1 (by decide)]
    norm_num
  · rw [(bmr_mifflin_formula 80 180 30 "other").2 (by decide)]
    norm_num

/-- C2: `compute_macros` returns protein `1.8*w`, fat `0.8*w`, and carbs
`max (tc - (1.8*w*4 + 0.8*w*9)) 0 / 4`; carbs are never negative, protein
and fat are never clamped, and `compute_macros 0 70 = (126, 56, 0)`. -/
theorem compute_macros_spec (tc w : ℚ) :
    compute_macros tc w =
      ⟨1.8 * w, 0.8 * w, max (tc - (1.8 * w * 4 + 0.8 * w * 9)) 0 / 4⟩ ∧
    0 ≤ (compute_macros tc w).carb_g ∧
    compute_macros 0 70 = ⟨126, 56, 0⟩ := by
  refine ⟨rfl, ?_, ?_⟩
  · show 0 ≤ max (tc - (1.8 * w * 4 + 0.8 * w * 9)) 0 / 4
    positivity
  · show Macros.mk (1.8 * 70) (0.8 * 70) (max ((0 : ℚ) - (1.8 * 70 * 4 + 0.8 * 70 * 9)) 0 / 4)
      = ⟨126, 56, 0⟩
    have h : max ((0 : ℚ) - (1.8 * 70 * 4 + 0.8 * 70 * 9)) 0 = 0 :=
      max_eq_right (by norm_num)
    rw [h]
    norm_num

/-- C3: `activity_multiplier` always returns one of the five table values,
maps each of the five keys to its exact value, and maps every other string
(including `""`) to the sedentary default `1.2`. -/
theorem activity_multiplier_spec (s : String) :
    (activity_multiplier s = 1.2 ∨ activity_multiplier s = 1.375 ∨
     activity_multiplier s = 1.55 ∨ activity_multiplier s = 1.725 ∨
     activity_multiplier s = 1.9) ∧
    activity_multiplier "sedentary" = 1.2 ∧
    activity_multiplier "light" = 1.375 ∧
    activity_multiplier "moderate" = 1.55 ∧
    activity_multiplier "very" = 1.725 ∧
    activity_multiplier "extra" = 1.9 ∧
    (s ∉ (["sedentary", "light", "moderate", "very", "extra"] : List String) →
      activity_multiplier s = 1.2) ∧
    activity_multiplier "" = 1.2 := by
  refine ⟨?_, ?_, ?_, ?_, ?_, ?_, ?_, ?_⟩
  · unfold activity_multiplier
    split_ifs <;> tauto
  · rfl
  · rfl
  · rfl
  · rfl
  · rfl
  · intro hs
    simp only [List.mem_cons, List.not_mem_nil, or_false, not_or] at hs
    obtain ⟨h1, h2, h3, h4, h5⟩ := hs
    simp [activity_multiplier, h1, h2, h3, h4, h5]
  · rfl

/-- Witness for C3: the unknown key `"swim"` falls through to `1.2`. -/
theorem activity_multiplier_spec_witness : activity_multiplier "swim" = 1.2 :=
  (activity_multiplier_spec "swim").2.2.2.2.2.2.1 (by decide)

/-- C4 counterexample: on `{heightCm:180, weightKg:80, ageYears:30,
gender:"male", activityLevel:"moderate"}` the code does NOT produce the
claimed `bmr = 1692.5`, `tdee = 2623.375`, `calories = 2623`,
`carbGrams = 368`. -/
theorem calculate_example_counterexample :
    bmrOf ⟨180, 80, 30, "male", "moderate"⟩ ≠ 1692.5 ∧
    tdeeOf ⟨180, 80, 30, "male", "moderate"⟩ ≠ 2623.375 ∧
    (calculate ⟨180, 80, 30, "male", "moderate"⟩).calories ≠ 2623 ∧
    (calculate ⟨180, 80, 30, "male", "moderate"⟩).carb_g ≠ 368 := by
  have hb : bmrOf ⟨180, 80, 30, "male", "moderate"⟩ = 1780 := by
    show calculate_bmr_mifflin_st_jeor 80 180 30 "male" = 1780
    rw [(bmr_mifflin_formula 80 180 30 "male").1 (by decide)]
    norm_num
  have ht : tdeeOf ⟨180, 80, 30, "male", "moderate"⟩ = 2759 := by
    show bmrOf ⟨180, 80, 30, "male", "moderate"⟩ *
      activity_multiplier "moderate" = 2759
    have hm : activity_multiplier "moderate" = 1.55 := rfl
    rw [hb, hm]
    norm_num
  refine ⟨by rw [hb]; norm_num, by rw [ht]; norm_num, ?_, ?_⟩
  · show pyRound (tdeeOf ⟨180, 80, 30, "male", "moderate"⟩) ≠ 2623
    rw [ht]
    norm_num [pyRound]
  · show pyRound ((compute_macros (tdeeOf ⟨180, 80, 30, "male", "moderate"⟩) 80).carb_g) ≠ 368
    rw [ht]
    have hc : (compute_macros 2759 80).carb_g = 1607/4 := by
      show max ((2759 : ℚ) - (1.8 * 80 * 4 + 0.8 * 80 * 9)) 0 / 4 = 1607/4
      rw [max_eq_left (by norm_num)]
      norm_num
    rw [hc]
    norm_num [pyRound]

/-- C4 (amended): on `{heightCm:180, weightKg:80, ageYears:30,
gender:"male", activityLevel:"moderate"}` the pipeline produces unrounded
`bmr = 1780` and `tdee = 2759`, and the rounded result has
`calories = 2759`, `proteinGrams = 144`, `fatGrams = 64`, `carbGrams = 402`. -/
theorem calculate_example_amended :
    bmrOf ⟨180, 80, 30, "male", "moderate"⟩ = 1780 ∧
    tdeeOf ⟨180, 80, 30, "male", "moderate"⟩ = 2759 ∧
    calculate ⟨180, 80, 30, "male", "moderate"⟩ =
      { calories := 2759, protein_g := 144, fat_g := 64, carb_g := 402
        bmr := 1780, activity_multiplier := 1.55 } := by
  have hb : bmrOf ⟨180, 80, 30, "male", "moderate"⟩ = 1780 := by
    show calculate_bmr_mifflin_st_jeor 80 180 30 "male" = 1780
    rw [(bmr_mifflin_formula 80 180 30 "male").1 (by decide)]
    norm_num
  have hm : activity_multiplier "moderate" = 1.55 := rfl
  have ht : tdeeOf ⟨180, 80, 30, "male", "moderate"⟩ = 2759 := by
    show bmrOf ⟨180, 80, 30, "male", "moderate"⟩ *
      activity_multiplier "moderate" = 2759
    rw [hb, hm]
    norm_num
  refine ⟨hb, ht, ?_⟩
  show CalcResult.mk
      (pyRound (tdeeOf ⟨180, 80, 30, "male", "moderate"⟩))
      (pyRound ((compute_macros (tdeeOf ⟨180, 80, 30, "male", "moderate"⟩) 80).protein_g))
      (pyRound ((compute_macros (tdeeOf ⟨180, 80, 30, "male", "moderate"⟩) 80).fat_g))
      (pyRound ((compute_macros (tdeeOf ⟨180, 80, 30, "male", "moderate"⟩) 80).carb_g))
      (pyRound (bmrOf ⟨180, 80, 30, "male", "moderate"⟩))
      (activity_multiplier "moderate") = _
  rw [hb, ht, hm]
  have hp : (compute_macros 2759 80).protein_g = 144 := by
    show (1.8 : ℚ) * 80 = 144
    norm_num
  have hf : (compute_macros 2759 80).fat_g = 64 := by
    show (0.8 : ℚ) * 80 = 64
    norm_num
  have hc : (compute_macros 2759 80).carb_g = 1607/4 := by
    show max ((2759 : ℚ) - (1.8 * 80 * 4 + 0.8 * 80 * 9)) 0 / 4 = 1607/4
    rw [max_eq_left (by norm_num)]
    norm_num
  rw [hp, hf, hc]
  have h1 : pyRound (2759 : ℚ) = 2759 := by norm_num [pyRound]
  have h2 : pyRound (144 : ℚ) = 144 := by norm_num [pyRound]
  have h3 : pyRound (64 : ℚ) = 64 := by norm_num [pyRound]
  have h4 : pyRound ((1607 : ℚ)/4) = 402 := by norm_num [pyRound]
  have h5 : pyRound (1780 : ℚ) = 1780 := by norm_num [pyRound]
  rw [h1, h2, h3, h4, h5]

/-- C8: every displayed field of `calculate` is produced by `pyRound` applied
to the corresponding unrounded value, and `pyRound` sends a value lying
exactly halfway between two integers to the even one. -/
theorem calculate_rounds_half_to_even (inp : CalcInput) (q : ℚ) (n : ℤ) :
    ((calculate inp).calories = pyRound (tdeeOf inp) ∧
     (calculate inp).protein_g =
       pyRound ((compute_macros (tdeeOf inp) inp.weight_kg).protein_g) ∧
     (calculate inp).fat_g =
       pyRound ((compute_macros (tdeeOf inp) inp.weight_kg).fat_g) ∧
     (calculate inp).carb_g =
       pyRound ((compute_macros (tdeeOf inp) inp.weight_kg).carb_g) ∧
     (calculate inp).bmr = pyRound (bmrOf inp)) ∧
    (q = (n : ℚ) + 1/2 → Even (pyRound q)) := by
  refine ⟨⟨rfl, rfl, rfl, rfl, rfl⟩, ?_⟩
  intro hq
  have hfl : ⌊q⌋ = n := by
    rw [hq, Int.floor_eq_iff]
    constructor
    · linarith
    · linarith
  have hfr : q - (⌊q⌋ : ℚ) = 1/2 := by
    rw [hfl, hq]
    ring
  rw [pyRound, hfr, hfl]
  rw [if_neg (lt_irrefl _), if_neg (lt_irrefl _)]
  rcases Int.even_or_odd n with he | ho
  · rw [if_pos (Int.even_iff.mp he)]
    exact he
  · rw [if_neg (by rw [Int.odd_iff.mp ho]; norm_num)]
    exact Int.even_add_one.mpr (Int.not_even_iff_odd.mpr ho)

/-- Witness for C8: `5/2` is a tie and `pyRound` sends it to the even `2`. -/
theorem calculate_rounds_half_to_even_witness : Even (pyRound ((5 : ℚ)/2)) :=
  (calculate_rounds_half_to_even ⟨0, 0, 0, "x", "y"⟩ ((5 : ℚ)/2) 2).2 (by norm_num)

/-- C9: for all weights and positive heights and ages, the male BMR exceeds
the female BMR by exactly 166. -/
theorem bmr_gender_difference (w h : ℚ) (a : ℤ) (hh : 0 < h) (ha : 0 < a) :
    calculate_bmr_mifflin_st_jeor w h a "male" -
      calculate_bmr_mifflin_st_jeor w h a "female" = 166 := by
  have h1 := (bmr_mifflin_formula w h a "male").1 (by decide)
  have h2 := (bmr_mifflin_formula w h a "female").2 (by decide)
  rw [h1, h2]
  ring

/-- Witness for C9 at weight 80, height 180, age 30. -/
theorem bmr_gender_difference_witness :
    (0 : ℚ) < 180 ∧ (0 : ℤ) < 30 ∧
    calculate_bmr_mifflin_st_jeor 80 180 30 "male" -
      calculate_bmr_mifflin_st_jeor 80 180 30 "female" = 166 :=
  ⟨by norm_num, by decide, bmr_gender_difference 80 180 30 (by norm_num) (by decide)⟩

/-- C6: `load_users` never fails: on a missing file it writes `"[]"` (state
becomes the empty valid store) and returns the empty list; on unparseable
content it returns the empty list; in every state it returns exactly the
parsed stored entries. -/
theorem load_users_never_fails :
    load_users .absent = ([], .valid []) ∧
    load_users .corrupt = ([], .corrupt) ∧
    ∀ fc, (load_users fc).1 = storeEntries fc :=
  ⟨rfl, rfl, load_users_fst⟩

/-- C7: `save_user_entry` preserves every previously stored entry unchanged
and in order: the stored sequence after an append is exactly the previous
sequence with the new entry at the end. -/
theorem save_preserves_previous_entries (fc : FileContent) (e : Entry) :
    storeEntries (save_user_entry e fc) = storeEntries fc ++ [e] := by
  cases fc <;> rfl

/-- C5: after `save_user_entry e`, the dashboard listing contains `e` exactly
once (when `e` was not already stored) and is ordered by timestamp
descending (lexicographic string order). -/
theorem store_roundtrip (fc : FileContent) (e : Entry)
    (hnotin : e ∉ storeEntries fc) :
    List.count e (dashboard_users (save_user_entry e fc)) = 1 ∧
    (dashboard_users (save_user_entry e fc)).Pairwise
      (fun a b => timKey b ≤ timKey a) := by
  constructor
  · have hperm : List.Perm (dashboard_users (save_user_entry e fc))
        (storeEntries fc ++ [e]) := by
      rw [dashboard_users, load_users_fst, save_preserves_previous_entries]
      exact List.mergeSort_perm _ _
    rw [hperm.count_eq]
    rw [List.count_append]
    rw [List.count_eq_zero.mpr hnotin]
    simp
  · exact dashboard_pairwise _

/-- Witness for C5: appending `entryA` to the empty store yields a listing
containing it exactly once. -/
theorem store_roundtrip_witness :
    entryA ∉ storeEntries (.valid []) ∧
    List.count entryA (dashboard_users (save_user_entry entryA (.valid []))) = 1 :=
  ⟨by simp [storeEntries],
   (store_roundtrip (.valid []) entryA (by simp [storeEntries])).1⟩

/-- C10: a stored entry whose `"timestamp"` key is missing (or maps to `""`)
is sorted with key `""`, so in the descending dashboard listing it appears
strictly after every entry with a non-empty timestamp; listing never fails
on such entries. -/
theorem missing_timestamp_listed_last :
    (∀ e : Entry, timKey e = "" ↔ (e.timestamp = none ∨ e.timestamp = some "")) ∧
    ∀ (l : List Entry) (i j : Fin (dashboard_users (.valid l)).length),
      timKey ((dashboard_users (.valid l)).get i) = "" →
      timKey ((dashboard_users (.valid l)).get j) ≠ "" →
      (j : ℕ) < (i : ℕ) := by
  constructor
  · intro e
    cases e with
    | mk name ts inputs results =>
      cases ts with
      | none => simp [timKey]
      | some s => simp [timKey, Option.getD]
  · intro l i j hi hj
    by_contra hc
    push_neg at hc
    have hij : (i : ℕ) ≤ (j : ℕ) := hc
    rcases lt_or_eq_of_le hij with hlt | heq
    · have hpw := dashboard_pairwise (FileContent.valid l)
      have hrel := List.pairwise_iff_get.mp hpw i j (Fin.lt_def.mpr hlt)
      rw [hi] at hrel
      exact hj (string_eq_empty_of_le_empty hrel)
    · have hij' : i = j := Fin.ext heq
      rw [hij'] at hi
      exact hj hi

/-- Witness for C10: in the store `[entryB, entryC]` (one timestamped entry,
one without), the dashboard lists `entryC` (no timestamp) after `entryB`. -/
theorem missing_timestamp_listed_last_witness :
    ∃ (i j : Fin (dashboard_users (.valid storeBC)).length),
      timKey ((dashboard_users (.valid storeBC)).get i) = "" ∧
      timKey ((dashboard_users (.valid storeBC)).get j) ≠ "" ∧
      (j : ℕ) < (i : ℕ) := by
  have hsorted : List.Pairwise (fun a b => entryDescBy a b = true) storeBC := by
    refine List.Pairwise.cons (fun a ha => ?_)
      (List.Pairwise.cons (by simp) List.Pairwise.nil)
    rw [List.mem_singleton] at ha
    subst ha
    decide
  have hdb : dashboard_users (.valid storeBC) = storeBC := by
    rw [dashboard_users]
    show List.mergeSort storeBC entryDescBy = storeBC
    exact List.mergeSort_of_sorted hsorted
  have h1 : (1 : ℕ) < (dashboard_users (.valid storeBC)).length := by
    rw [hdb]
    norm_num [storeBC]
  have h0 : (0 : ℕ) < (dashboard_users (.valid storeBC)).length := by
    rw [hdb]
    norm_num [storeBC]
  have hget1 : (dashboard_users (.valid storeBC)).get ⟨1, h1⟩ = entryC := by
    rw [List.get_of_eq hdb ⟨1, h1⟩]
    rfl
  have hget0 : (dashboard_users (.valid storeBC)).get ⟨0, h0⟩ = entryB := by
    rw [List.get_of_eq hdb ⟨0, h0⟩]
    rfl
  refine ⟨⟨1, h1⟩, ⟨0, h0⟩, ?_, ?_, ?_⟩
  · rw [hget1]
    rfl
  · rw [hget0]
    decide
  · exact missing_timestamp_listed_last.2 storeBC ⟨1, h1⟩ ⟨0, h0⟩
      (by rw [hget1]; rfl)
      (by rw [hget0]; decide)
